import Mathlib

/-!
Verification of the shared request/response/pagination engine of the
Atlassian-Cloud REST client (`AtlassianCloudRest.py`).

The Python code is shallowly embedded: dictionaries become association
lists, Python `None` becomes `Option.none`, exceptions become `Except`
or explicit outcome constructors, generators become functions returning
the list of yielded items (with a fuel argument where the source loop
has no termination guarantee), and the external HTTP transport becomes
a function parameter.  Printing is modelled as a list of structured log
entries.
-/

namespace AtlassianCloudRest

/-- A raw transport response, as the `requests` library hands it back:
status code, headers, body content, and the echo of the request that
produced it (`response.request.method` / `.url` / `.body`). -/
structure HttpResponse where
  status : Nat
  headers : String
  content : String
  reqMethod : String
  reqUrl : String
  reqBody : String
deriving DecidableEq

/-- One line of diagnostic output.  `apiError` carries everything the
`print` block of `_processResponse` / `_callSeveralProcessResponse`
emits; `progError` is the `print("Programmfehler", e)` line of the
`except` branch; `retryDot` is the `print('.')` of a retry, and
`sleepFor` records the `time.sleep(5)` backoff. -/
inductive LogEntry where
  | apiError (status : Nat) (headers content reqMethod reqUrl reqBody : String)
  | progError
  | retryDot
  | sleepFor (units : Nat)
deriving DecidableEq

/-- The possible values returned by `AtlassianCloud._processResponse`:
a decoded body, the boolean success marker `True`, Python `None`
(absent), or the raw response object (the `except` escape hatch). -/
inductive ProcResult (α : Type) where
  | value (a : α)
  | success
  | absent
  | raw (r : HttpResponse)
deriving DecidableEq

/-- The exact transient-failure body recognised by
`_callSeveralProcessResponse`. -/
def siteUnavailableBody : String :=
  "\x7b\"errorMessage\": \"Site temporarily unavailable\"\x7d"

/-- `AtlassianCloud._processResponse`.  `decode` models `ut.loads`,
returning `none` when decoding raises.  The second component is the
diagnostic output printed along the way. -/
def processResponse {α : Type} (decode : String → Option α) (response : HttpResponse)
    (expectedStatusCode : Nat) (noresponse : Bool) :
    ProcResult α × List LogEntry :=
  if response.status = expectedStatusCode then
    if noresponse || expectedStatusCode == 204 then
      (ProcResult.success, [])
    else
      match decode response.content with
      | some v => (ProcResult.value v, [])
      | none => (ProcResult.raw response, [LogEntry.progError])
  else
    (ProcResult.absent,
      [LogEntry.apiError response.status response.headers response.content
        response.reqMethod response.reqUrl response.reqBody])

/-- `AtlassianCloud._callSeveralProcessResponse`.  `transport i` is the
response the `i`-th underlying `_callApi` call produces (the request is
rebuilt each time, so the responses may differ).  Returns the result,
the diagnostic output, and the number of underlying calls made.
Recursion mirrors the source: retry only while `attempt < 5`. -/
def callSeveralProcessResponse {α : Type} (decode : String → Option α)
    (transport : Nat → HttpResponse) (expectedStatusCode : Nat) (noresponse : Bool)
    (attempt : Nat) : ProcResult α × List LogEntry × Nat :=
  if (transport attempt).status = expectedStatusCode then
    if noresponse || expectedStatusCode == 204 then
      (ProcResult.success, [], 1)
    else
      match decode (transport attempt).content with
      | some v => (ProcResult.value v, [], 1)
      | none => (ProcResult.raw (transport attempt), [LogEntry.progError], 1)
  else if h : ((transport attempt).status = 401 ∨ (transport attempt).status = 404) ∧
      (transport attempt).content = siteUnavailableBody ∧ attempt < 5 then
    ((callSeveralProcessResponse decode transport expectedStatusCode noresponse (attempt + 1)).1,
      LogEntry.retryDot :: LogEntry.sleepFor 5 ::
        (callSeveralProcessResponse decode transport expectedStatusCode noresponse (attempt + 1)).2.1,
      (callSeveralProcessResponse decode transport expectedStatusCode noresponse (attempt + 1)).2.2 + 1)
  else
    (ProcResult.absent,
      [LogEntry.apiError (transport attempt).status (transport attempt).headers
        (transport attempt).content (transport attempt).reqMethod
        (transport attempt).reqUrl (transport attempt).reqBody], 1)
termination_by 5 - attempt
decreasing_by exact Nat.sub_succ_lt_self 5 attempt h.2.2

/-! ## The connector: `__init__`, `setBase`, `_check`, `_callApi`

URLs are modelled as their character lists, so `baseurl.endswith('/')`
becomes `getLast? = some '/'` and `baseurl[:-1]` becomes `dropLast`.
Python dictionaries with possibly-`None` values become association
lists with `Option` values. -/

/-- `AtlassianCloud.setBase`: strip a single trailing `'/'` if present
and return the value stored into `self.base_url`. -/
def setBase (baseurl : List Char) : List Char :=
  if baseurl.getLast? = some '/' then baseurl.dropLast else baseurl

/-- A Python dict whose values may be `None` (`Option.none`). -/
abbrev PyDict := List (String × Option Int)

/-- The connection context.  `baseUrl = none` models the state after
`__init__` ran without a `baseurl` argument: the assignment
`base_url = ""` in `__init__` binds a local variable, so the attribute
`self.base_url` is never created in that case. -/
structure Client where
  baseUrl : Option (List Char)
  apiUrls : List (Int × List Char)
  apiVersion : Int
deriving DecidableEq

/-- Exceptions the connector can raise before any network activity:
reading the never-assigned `self.base_url` attribute, the
`raise(...)` in `_check` for an empty base URL, and a missing key in
`self._api_urls`. -/
inductive PyError where
  | attributeError
  | notConfigured
  | keyError
deriving DecidableEq

/-- `AtlassianCloud.__init__` followed by a subclass storing its
endpoint table: since `base_url = ""` only binds a local, the
`self.base_url` attribute exists only when a `baseurl` was passed (and
then holds `setBase baseurl`). -/
def mkClient (baseurl : Option (List Char)) (apiUrls : List (Int × List Char))
    (apiVersion : Int) : Client :=
  match baseurl with
  | none => { baseUrl := none, apiUrls := apiUrls, apiVersion := apiVersion }
  | some u => { baseUrl := some (setBase u), apiUrls := apiUrls, apiVersion := apiVersion }

/-- `AtlassianCloud._check`: raises when `self.base_url` is missing
(attribute error while reading it) or equal to the empty string. -/
def check (c : Client) : Except PyError Unit :=
  match c.baseUrl with
  | none => Except.error PyError.attributeError
  | some u => if u = [] then Except.error PyError.notConfigured else Except.ok ()

/-- `del params['self']` (a no-op when the key is absent). -/
def delSelfKey (d : PyDict) : PyDict :=
  d.filter (fun p => !(p.1 == "self"))

/-- The loop `for key in dict(data): if data[key] == None: del data[key]`. -/
def delNullValues (d : PyDict) : PyDict :=
  d.filter (fun p => p.2.isSome)

/-- The request handed to `requests.request`: method, full URL, the
query-parameter dict and the (serialised) body dict. -/
structure PyRequest where
  method : String
  url : List Char
  params : Option PyDict
  body : Option PyDict
deriving DecidableEq

/-- `AtlassianCloud._callApi` up to (but not including) the
`requests.request` transport call.  Returns the outgoing request
together with the final states of the caller's `params` and `data`
dictionaries — `_callApi` mutates those dicts in place, so after the
call the caller observes exactly these values. -/
def callApiBuild (c : Client) (call : List Char) (params : Option PyDict)
    (method : String) (data : Option PyDict) (apiVersion : Option Int) :
    Except PyError (PyRequest × Option PyDict × Option PyDict) :=
  match check c with
  | Except.error e => Except.error e
  | Except.ok _ =>
    let params1 := params.map delSelfKey
    let data1 := (data.map delSelfKey).map delNullValues
    match c.baseUrl with
    | none => Except.error PyError.attributeError
    | some base =>
      match (c.apiUrls.find? (fun p => p.1 == (apiVersion.getD c.apiVersion))) with
      | none => Except.error PyError.keyError
      | some pathEntry =>
        Except.ok
          ({ method := method, url := base ++ ['/'] ++ pathEntry.2 ++ call,
             params := params1, body := data1 }, params1, data1)

/-- `_callApi` including the transport call: the pair also returns the
list of requests actually transmitted, so "no network attempt" is the
empty list. -/
def callApi (transport : PyRequest → HttpResponse) (c : Client) (call : List Char)
    (params : Option PyDict) (method : String) (data : Option PyDict)
    (apiVersion : Option Int) : Except PyError HttpResponse × List PyRequest :=
  match callApiBuild c call params method data apiVersion with
  | Except.error e => (Except.error e, [])
  | Except.ok (req, _, _) => (Except.ok (transport req), [req])

/-! ## `JiraApi._processResponsePaginated` — offset pagination

The fetch pipeline `self._processResponse(self._callApi(call, params))`
is abstracted into a `server` oracle from the (mutated) parameter dict
to the decoded page envelope (`none` models the fail-soft `None`).  The
generator becomes a function returning the list of yielded items
together with the list of parameter dicts each fetch was made with.
The source `while` loop has no termination guarantee, so the loop
carries a fuel argument. -/

/-- The decoded envelope of one offset-paginated page: the attributes
`startAt`, `maxResults`, `total` and the (optionally nested) results
array that `_processResponsePaginated` reads. -/
structure JiraPage where
  startAt : Int
  maxResults : Int
  total : Int
  values : List Int
deriving DecidableEq

/-- The mutable `params` dict of the offset paginator, restricted to
the two keys the loop touches.  `none` covers both an absent key and a
key set to Python `None` where the source treats them alike. -/
structure JiraParams where
  startAt : Option Int
  maxResults : Option Int
deriving DecidableEq

/-- The `while` condition:
`results.startAt+results.maxResults < results.total and
(limit == None or results.startAt+results.maxResults < start+limit)`. -/
def jiraContinue (limit : Option Int) (start : Int) (results : JiraPage) : Bool :=
  decide (results.startAt + results.maxResults < results.total) &&
    (match limit with
     | none => true
     | some l => decide (results.startAt + results.maxResults < start + l))

/-- The loop body's parameter update: `params["startAt"] = results.startAt
+results.maxResults` followed by the conditional page-size shrink
`params['maxResults'] = results.maxResults - (params['startAt']
+results.maxResults - limit)`. -/
def jiraNextParams (limit : Option Int) (results : JiraPage) (params : JiraParams) :
    JiraParams :=
  match limit with
  | none => { params with startAt := some (results.startAt + results.maxResults) }
  | some l =>
    if results.startAt + results.maxResults + results.maxResults > l then
      { params with
        startAt := some (results.startAt + results.maxResults),
        maxResults := some (results.maxResults -
          (results.startAt + results.maxResults + results.maxResults - l)) }
    else { params with startAt := some (results.startAt + results.maxResults) }

/-- The `while` loop of `JiraApi._processResponsePaginated`. -/
def jiraPaginateLoop (server : JiraParams → Option JiraPage) (limit : Option Int)
    (start : Int) : Nat → JiraParams → JiraPage → List Int × List JiraParams
  | 0, _, _ => ([], [])
  | fuel + 1, params, results =>
    if jiraContinue limit start results then
      match server (jiraNextParams limit results params) with
      | none => ([], [jiraNextParams limit results params])
      | some r =>
        (r.values ++
          (jiraPaginateLoop server limit start fuel (jiraNextParams limit results params) r).1,
         jiraNextParams limit results params ::
          (jiraPaginateLoop server limit start fuel (jiraNextParams limit results params) r).2)
    else ([], [])

/-- `JiraApi._processResponsePaginated`: initial fetch, then the loop.
Returns the yielded items and the parameter dicts of every fetch. -/
def jiraPaginate (server : JiraParams → Option JiraPage) (fuel : Nat)
    (params : JiraParams) : List Int × List JiraParams :=
  match server params with
  | none => ([], [params])
  | some results =>
    (results.values ++
      (jiraPaginateLoop server params.maxResults (params.startAt.getD 0) fuel params results).1,
     params ::
      (jiraPaginateLoop server params.maxResults (params.startAt.getD 0) fuel params results).2)

/-- The page a well-behaved offset server hands back: it echoes the
requested offset, reports the page size as the requested `maxResults`
clamped to its own ceiling `serverCap`, and returns the items at
offsets `s, s+1, ...` that exist (never more than the reported page
size, never past `total`). -/
def stdPage (total serverCap : Int) (p : JiraParams) : JiraPage :=
  { startAt := p.startAt.getD 0,
    maxResults := min (p.maxResults.getD serverCap) serverCap,
    total := total,
    values := (List.range
        (max 0 (min (min (p.maxResults.getD serverCap) serverCap)
          (total - p.startAt.getD 0))).toNat).map
      (fun i => p.startAt.getD 0 + Int.ofNat i) }

/-- A well-behaved offset server: every fetch decodes to `stdPage`. -/
def stdJiraServer (total serverCap : Int) (p : JiraParams) : Option JiraPage :=
  some (stdPage total serverCap p)

/-! ## `ConfluenceApi._processResponsePaginated` — cursor pagination -/

/-- The continuation link `results._links.next`, reduced to its parsed
query string (`parse_qs` of `urlparse(...).query`). -/
structure NextLink where
  query : List (String × String)
deriving DecidableEq

/-- A decoded cursor-paginated envelope: the `results` array and the
optional `_links.next` continuation link. -/
structure ConfPage where
  results : List Int
  next : Option NextLink
deriving DecidableEq

/-- The mutable `params` dict of the cursor paginator, restricted to
the keys the loop touches. -/
structure ConfParams where
  limit : Option Int
  cursor : Option String
deriving DecidableEq

/-- How the generator ends: the `while` condition turned false or a
fetch came back `None` (`ended`), the cursor-extraction `except` branch
raised (`cursorMissing`), or the fuel ran out while the source loop was
still going (`fuelOut`). -/
inductive ConfOutcome where
  | ended
  | cursorMissing
  | fuelOut
deriving DecidableEq

/-- `params['cursor'] = parse_qs(parsed_url.query)['cursor'][0]`:
`none` when the query string has no `cursor` parameter (the `KeyError`
caught by the `except`). -/
def extractCursor (link : NextLink) : Option String :=
  (link.query.find? (fun q => q.1 == "cursor")).map (fun q => q.2)

/-- The `while` condition: `hasattr(results._links, 'next') and
(limit == None or totalCount < limit)`. -/
def confContinue (limit : Option Int) (totalCount : Int) (results : ConfPage) : Bool :=
  results.next.isSome &&
    (match limit with
     | none => true
     | some l => decide (totalCount < l))

/-- The conditional limit shrink `params['limit'] = count -
(totalCount+count - limit)`. -/
def confShrink (limit : Option Int) (count totalCount : Int) (p : ConfParams) : ConfParams :=
  match limit with
  | none => p
  | some l =>
    if totalCount + count > l then
      { p with limit := some (count - (totalCount + count - l)) }
    else p

/-- The `while` loop of `ConfluenceApi._processResponsePaginated`.
Faithful to the source, `count` and `totalCount` are NOT updated after
the fetches inside the loop: the loop body only yields. -/
def confPaginateLoop (server : ConfParams → Option ConfPage) (limit : Option Int)
    (count totalCount : Int) : Nat → ConfParams → ConfPage → List Int × ConfOutcome
  | 0, _, _ => ([], ConfOutcome.fuelOut)
  | fuel + 1, params, results =>
    if confContinue limit totalCount results then
      match results.next with
      | none => ([], ConfOutcome.ended)
      | some link =>
        match extractCursor link with
        | none => ([], ConfOutcome.cursorMissing)
        | some cur =>
          match server (confShrink limit count totalCount { params with cursor := some cur }) with
          | none => ([], ConfOutcome.ended)
          | some r =>
            (r.results ++
              (confPaginateLoop server limit count totalCount fuel
                (confShrink limit count totalCount { params with cursor := some cur }) r).1,
             (confPaginateLoop server limit count totalCount fuel
                (confShrink limit count totalCount { params with cursor := some cur }) r).2)
    else ([], ConfOutcome.ended)

/-- The page-size normalisation at the top of the paginator: default to
25 when unset, clamp to 250 when above 250 (the original `limit`
variable keeps the caller's unnormalised value). -/
def confNormalize (params0 : ConfParams) : ConfParams :=
  match params0.limit with
  | none => { params0 with limit := some 25 }
  | some l => if l > 250 then { params0 with limit := some 250 } else params0

/-- `ConfluenceApi._processResponsePaginated`: normalise the page size,
fetch the first page, set `count`/`totalCount` from it, then run the
loop. -/
def confPaginate (server : ConfParams → Option ConfPage) (fuel : Nat)
    (params0 : ConfParams) : List Int × ConfOutcome :=
  match server (confNormalize params0) with
  | none => ([], ConfOutcome.ended)
  | some results =>
    (results.results ++
      (confPaginateLoop server params0.limit (results.results.length)
        (0 + (results.results.length : Int)) fuel (confNormalize params0) results).1,
     (confPaginateLoop server params0.limit (results.results.length)
        (0 + (results.results.length : Int)) fuel (confNormalize params0) results).2)

/-- A cursor server that honours the requested `limit` up to its own
page size of 25 and always offers a next link carrying a cursor. -/
def alwaysNextConfServer (p : ConfParams) : Option ConfPage :=
  some { results := (List.range (max 0 (min (p.limit.getD 25) 25)).toNat).map (fun i => (i : Int)),
         next := some { query := [("cursor", "c")] } }

/-! ## Helper lemmas -/

/-- Unfolding lemma for a retry step of `_callSeveralProcessResponse`:
status mismatch, transient signature matched, attempt budget left. -/
theorem callSeveral_retry_step {α : Type} (decode : String → Option α)
    (transport : Nat → HttpResponse) (e : Nat) (nores : Bool) (attempt : Nat)
    (hne : (transport attempt).status ≠ e)
    (h4 : (transport attempt).status = 401 ∨ (transport attempt).status = 404)
    (hc : (transport attempt).content = siteUnavailableBody)
    (hlt : attempt < 5) :
    callSeveralProcessResponse decode transport e nores attempt =
      ((callSeveralProcessResponse decode transport e nores (attempt + 1)).1,
        LogEntry.retryDot :: LogEntry.sleepFor 5 ::
          (callSeveralProcessResponse decode transport e nores (attempt + 1)).2.1,
        (callSeveralProcessResponse decode transport e nores (attempt + 1)).2.2 + 1) := by
  conv_lhs => rw [callSeveralProcessResponse]
  rw [if_neg hne, dif_pos ⟨h4, hc, hlt⟩]

/-- Unfolding lemma for the fall-through branch of
`_callSeveralProcessResponse`: status mismatch and no retry. -/
theorem callSeveral_fail_step {α : Type} (decode : String → Option α)
    (transport : Nat → HttpResponse) (e : Nat) (nores : Bool) (attempt : Nat)
    (hne : (transport attempt).status ≠ e)
    (hno : ¬(((transport attempt).status = 401 ∨ (transport attempt).status = 404) ∧
      (transport attempt).content = siteUnavailableBody ∧ attempt < 5)) :
    callSeveralProcessResponse decode transport e nores attempt =
      (ProcResult.absent,
        [LogEntry.apiError (transport attempt).status (transport attempt).headers
          (transport attempt).content (transport attempt).reqMethod
          (transport attempt).reqUrl (transport attempt).reqBody], 1) := by
  conv_lhs => rw [callSeveralProcessResponse]
  rw [if_neg hne, dif_neg hno]

/-- What `_callApi` hands to the transport and leaves in the caller's
dictionaries on a successful build. -/
theorem callApiBuild_ok (c : Client) (call : List Char) (pp dd : Option PyDict)
    (m : String) (v : Option Int) (req : PyRequest) (p' d' : Option PyDict)
    (h : callApiBuild c call pp m dd v = Except.ok (req, p', d')) :
    p' = pp.map delSelfKey ∧ d' = (dd.map delSelfKey).map delNullValues ∧
    req.params = pp.map delSelfKey ∧ req.body = (dd.map delSelfKey).map delNullValues := by
  unfold callApiBuild at h
  split at h
  · exact absurd h (by simp)
  · split at h
    · exact absurd h (by simp)
    · split at h
      · exact absurd h (by simp)
      · rw [Except.ok.injEq] at h
        simp only [Prod.mk.injEq] at h
        obtain ⟨h1, h2, h3⟩ := h
        subst h1 h2 h3
        exact ⟨rfl, rfl, rfl, rfl⟩

/-! ## Claim theorems -/

/-- Claim C3: when every response carries status 401 or 404 with the
exact "site temporarily unavailable" body (and misses the expected
status), the wrapper sleeps a fixed 5-unit backoff between attempts and
retries only while the attempt count is below 5, so exactly 5
underlying calls are made, and the 5th outcome falls through to the
normal failure handling: log the diagnostic and return absent. -/
theorem retry_transient_five_calls {α : Type} (decode : String → Option α)
    (transport : Nat → HttpResponse) (e : Nat)
    (h : ∀ i, 1 ≤ i → i ≤ 5 →
      ((transport i).status = 401 ∨ (transport i).status = 404) ∧
      (transport i).content = siteUnavailableBody ∧ (transport i).status ≠ e) :
    callSeveralProcessResponse decode transport e false 1 =
      (ProcResult.absent,
        [LogEntry.retryDot, LogEntry.sleepFor 5, LogEntry.retryDot, LogEntry.sleepFor 5,
         LogEntry.retryDot, LogEntry.sleepFor 5, LogEntry.retryDot, LogEntry.sleepFor 5,
         LogEntry.apiError (transport 5).status (transport 5).headers (transport 5).content
           (transport 5).reqMethod (transport 5).reqUrl (transport 5).reqBody], 5) := by
  have h1 := h 1 (by norm_num) (by norm_num)
  have h2 := h 2 (by norm_num) (by norm_num)
  have h3 := h 3 (by norm_num) (by norm_num)
  have h4 := h 4 (by norm_num) (by norm_num)
  have h5 := h 5 (by norm_num) (by norm_num)
  rw [callSeveral_retry_step decode transport e false 1 h1.2.2 h1.1 h1.2.1 (by norm_num),
    callSeveral_retry_step decode transport e false 2 h2.2.2 h2.1 h2.2.1 (by norm_num),
    callSeveral_retry_step decode transport e false 3 h3.2.2 h3.1 h3.2.1 (by norm_num),
    callSeveral_retry_step decode transport e false 4 h4.2.2 h4.1 h4.2.1 (by norm_num),
    callSeveral_fail_step decode transport e false 5 h5.2.2
      (fun hx => absurd hx.2.2 (by norm_num))]

/-- Witness for C3 at a concrete transport. -/
def c3Response : HttpResponse :=
  { status := 401, headers := "hdr", content := siteUnavailableBody,
    reqMethod := "GET", reqUrl := "u", reqBody := "b" }

theorem retry_transient_five_calls_witness :
    callSeveralProcessResponse (fun _ => (none : Option Nat)) (fun _ => c3Response) 200 false 1 =
      (ProcResult.absent,
        [LogEntry.retryDot, LogEntry.sleepFor 5, LogEntry.retryDot, LogEntry.sleepFor 5,
         LogEntry.retryDot, LogEntry.sleepFor 5, LogEntry.retryDot, LogEntry.sleepFor 5,
         LogEntry.apiError 401 "hdr" siteUnavailableBody "GET" "u" "b"], 5) :=
  retry_transient_five_calls (fun _ => (none : Option Nat)) (fun _ => c3Response) 200
    (fun _ _ _ => ⟨Or.inl rfl, rfl, by norm_num [c3Response]⟩)

/-- Claim C7: a response whose status is neither the expected one nor a
401/404 with the transient marker body is never retried: the wrapper
fails soft on the first attempt (log the diagnostic, return absent),
making exactly one underlying call. -/
theorem retry_nontransient_one_call {α : Type} (decode : String → Option α)
    (transport : Nat → HttpResponse) (e : Nat)
    (hne : (transport 1).status ≠ e)
    (hnm : ¬(((transport 1).status = 401 ∨ (transport 1).status = 404) ∧
      (transport 1).content = siteUnavailableBody)) :
    callSeveralProcessResponse decode transport e false 1 =
      (ProcResult.absent,
        [LogEntry.apiError (transport 1).status (transport 1).headers
          (transport 1).content (transport 1).reqMethod
          (transport 1).reqUrl (transport 1).reqBody], 1) :=
  callSeveral_fail_step decode transport e false 1 hne (fun hx => hnm ⟨hx.1, hx.2.1⟩)

/-- Witness for C7 at a concrete status-500 transport. -/
def c7Response : HttpResponse :=
  { status := 500, headers := "hdr", content := "oops",
    reqMethod := "GET", reqUrl := "u", reqBody := "b" }

theorem retry_nontransient_one_call_witness :
    callSeveralProcessResponse (fun _ => (none : Option Nat)) (fun _ => c7Response) 200 false 1 =
      (ProcResult.absent, [LogEntry.apiError 500 "hdr" "oops" "GET" "u" "b"], 1) :=
  retry_nontransient_one_call (fun _ => (none : Option Nat)) (fun _ => c7Response) 200
    (by norm_num [c7Response]) (by norm_num [c7Response])

/-- Claim C4: on a status mismatch the interpreter does not raise: it
logs a diagnostic carrying the status, headers, raw content and the
echoed request method, URL and body, and returns the absent outcome;
and when decoding the body itself throws, the exception is caught,
logged, and the raw response object is returned unchanged. -/
theorem processResponse_fail_soft {α : Type} (decode : String → Option α)
    (resp : HttpResponse) (expected : Nat) (nores : Bool) :
    (resp.status ≠ expected →
      processResponse decode resp expected nores =
        (ProcResult.absent,
          [LogEntry.apiError resp.status resp.headers resp.content
            resp.reqMethod resp.reqUrl resp.reqBody])) ∧
    (resp.status = expected → (nores || expected == 204) = false →
      decode resp.content = none →
      processResponse decode resp expected nores =
        (ProcResult.raw resp, [LogEntry.progError])) := by
  constructor
  · intro hne
    rw [processResponse, if_neg hne]
  · intro heq hb hdec
    rw [processResponse, if_pos heq, hb, hdec]
    simp

/-- Witness for C4: a mismatching status-500 response, and a matching
response whose body fails to decode. -/
def c4RespMismatch : HttpResponse :=
  { status := 500, headers := "h", content := "c",
    reqMethod := "PUT", reqUrl := "u", reqBody := "b" }

def c4RespBadBody : HttpResponse :=
  { status := 200, headers := "h", content := "not json",
    reqMethod := "GET", reqUrl := "u", reqBody := "b" }

theorem processResponse_fail_soft_witness :
    processResponse (fun _ => (none : Option Nat)) c4RespMismatch 200 false =
      (ProcResult.absent, [LogEntry.apiError 500 "h" "c" "PUT" "u" "b"]) ∧
    processResponse (fun _ => (none : Option Nat)) c4RespBadBody 200 false =
      (ProcResult.raw c4RespBadBody, [LogEntry.progError]) :=
  ⟨(processResponse_fail_soft (fun _ => (none : Option Nat)) c4RespMismatch 200 false).1
      (by norm_num [c4RespMismatch]),
   (processResponse_fail_soft (fun _ => (none : Option Nat)) c4RespBadBody 200 false).2
      rfl rfl rfl⟩

/-- Claim C5: a call attempted on a client whose base URL was set
neither at construction nor via `setBase` raises a configuration error
synchronously — `_check` fails while reading the never-assigned
`self.base_url` attribute — and no request is ever transmitted. -/
theorem call_before_configure_raises (transport : PyRequest → HttpResponse)
    (apiUrls : List (Int × List Char)) (ver : Int) (call : List Char)
    (params : Option PyDict) (method : String) (data : Option PyDict)
    (apiVersion : Option Int) :
    callApi transport (mkClient none apiUrls ver) call params method data apiVersion =
      (Except.error PyError.attributeError, []) := rfl

/-- Counterexample for C8: on a valid base URL ending in a double
slash, `setBase` applied to its own output stores a different base, so
`setBase` is not idempotent as claimed. -/
theorem setBase_not_idempotent :
    setBase (setBase ("https://example.org//".toList)) ≠
      setBase ("https://example.org//".toList) := by decide

/-- Claim C8 (amended): `setBase` strips exactly one trailing slash —
its output followed by `'/'` is the input again — and it is idempotent
whenever the stripped URL does not itself end with a slash (that is,
for every base URL with a single trailing slash). -/
theorem setBase_strips_one_slash (u : List Char)
    (h1 : u.getLast? = some '/') (h2 : u.dropLast.getLast? ≠ some '/') :
    setBase u ++ ['/'] = u ∧ setBase (setBase u) = setBase u := by
  constructor
  · rw [setBase, if_pos h1]
    rcases u.eq_nil_or_concat with rfl | ⟨l, a, rfl⟩
    · simp at h1
    · simp only [List.concat_eq_append] at h1 ⊢
      rw [List.getLast?_concat] at h1
      rw [List.dropLast_concat]
      simp only [Option.some.injEq] at h1
      rw [h1]
  · have hx : setBase u = u.dropLast := by rw [setBase, if_pos h1]
    rw [hx, setBase, if_neg h2]

/-- Witness for C8 at a concrete single-trailing-slash URL. -/
theorem setBase_strips_one_slash_witness :
    setBase ("https://example.org/".toList) ++ ['/'] = "https://example.org/".toList ∧
    setBase (setBase ("https://example.org/".toList)) =
      setBase ("https://example.org/".toList) :=
  setBase_strips_one_slash ("https://example.org/".toList) (by decide) (by decide)

/-- A configured client used by the connector counterexamples. -/
def demoClient : Client :=
  mkClient (some ("https://example.org".toList)) [(3, ("rest/api/3/".toList))] 3

/-- Counterexample for C9: `_callApi` leaves a null-valued query
parameter (`expand = None`) in the transmitted request untouched —
only null-valued body fields are stripped — so the transmitted request
does contain a null-valued parameter field. -/
theorem callApi_keeps_null_params :
    callApiBuild demoClient ("user".toList) (some [("expand", none)]) "GET"
        (some [("description", none), ("name", some 1)]) none =
      Except.ok
        ({ method := "GET",
           url := ("https://example.org".toList) ++ ['/'] ++ ("rest/api/3/".toList) ++
             ("user".toList),
           params := some [("expand", none)],
           body := some [("name", some 1)] },
         some [("expand", none)], some [("name", some 1)]) := rfl

/-- Claim C9 (amended): on every call that reaches the transport, every
null-valued body field is stripped before transmission, so the
transmitted body contains no null-valued fields; query parameters are
passed through with only the key `self` removed — null-valued query
parameters are left for the transport layer. -/
theorem callApi_strips_null_body_fields (c : Client) (call : List Char) (p d : PyDict)
    (m : String) (v : Option Int) (req : PyRequest) (p' d' : Option PyDict)
    (h : callApiBuild c call (some p) m (some d) v = Except.ok (req, p', d')) :
    req.body = some (delNullValues (delSelfKey d)) ∧
    (∀ e ∈ delNullValues (delSelfKey d), e.2 ≠ none) ∧
    req.params = some (delSelfKey p) := by
  obtain ⟨-, -, h3, h4⟩ := callApiBuild_ok c call (some p) (some d) m v req p' d' h
  refine ⟨by simpa using h4, ?_, by simpa using h3⟩
  intro e he
  have := (List.mem_filter.mp he).2
  simp only [Option.isSome] at this
  intro hn
  rw [hn] at this
  exact Bool.false_ne_true this

/-- Witness for C9's amended claim at a concrete call. -/
theorem callApi_strips_null_body_fields_witness :
    (some [("name", (some 1 : Option Int))] : Option PyDict) =
        some (delNullValues (delSelfKey [("description", none), ("name", some 1)])) ∧
    (∀ e ∈ delNullValues (delSelfKey [("description", none), ("name", some 1)]),
        e.2 ≠ (none : Option Int)) ∧
    (some [("expand", (none : Option Int))] : Option PyDict) =
        some (delSelfKey [("expand", none)]) :=
  callApi_strips_null_body_fields demoClient ("user".toList) [("expand", none)]
    [("description", none), ("name", some 1)] "GET" none
    { method := "GET",
      url := ("https://example.org".toList) ++ ['/'] ++ ("rest/api/3/".toList) ++
        ("user".toList),
      params := some [("expand", none)], body := some [("name", some 1)] }
    (some [("expand", none)]) (some [("name", some 1)]) rfl

/-- Claim C10: `_callApi` mutates the caller-owned dictionaries in
place before sending: after the call the caller's `params` dict has
lost its `self` key, and the caller's `data` dict has lost its `self`
key and every null-valued entry. -/
theorem callApi_mutates_caller_dicts (c : Client) (call : List Char) (p d : PyDict)
    (m : String) (v : Option Int) (req : PyRequest) (p' d' : Option PyDict)
    (h : callApiBuild c call (some p) m (some d) v = Except.ok (req, p', d')) :
    p' = some (delSelfKey p) ∧ d' = some (delNullValues (delSelfKey d)) ∧
    (∀ e ∈ delSelfKey p, e.1 ≠ "self") ∧
    (∀ e ∈ delNullValues (delSelfKey d), e.1 ≠ "self" ∧ e.2 ≠ none) := by
  obtain ⟨h1, h2, -, -⟩ := callApiBuild_ok c call (some p) (some d) m v req p' d' h
  refine ⟨by simpa using h1, by simpa using h2, ?_, ?_⟩
  · intro e he
    have := (List.mem_filter.mp he).2
    simpa using this
  · intro e he
    have hmem := List.mem_filter.mp he
    have h5 := (List.mem_filter.mp hmem.1).2
    refine ⟨by simpa using h5, ?_⟩
    have := hmem.2
    simp only [Option.isSome] at this
    intro hn
    rw [hn] at this
    exact Bool.false_ne_true this

/-- Witness for C10 at a concrete call whose dicts carry a `self` key
and a null value. -/
theorem callApi_mutates_caller_dicts_witness :
    (some [("expand", (some 2 : Option Int))] : Option PyDict) =
        some (delSelfKey [("self", some 0), ("expand", some 2)]) ∧
    (some [("name", (some 1 : Option Int))] : Option PyDict) =
        some (delNullValues (delSelfKey [("self", some 0), ("description", none), ("name", some 1)])) ∧
    (∀ e ∈ delSelfKey [("self", (some 0 : Option Int)), ("expand", some 2)], e.1 ≠ "self") ∧
    (∀ e ∈ delNullValues (delSelfKey [("self", (some 0 : Option Int)), ("description", none),
        ("name", some 1)]), e.1 ≠ "self" ∧ e.2 ≠ none) :=
  callApi_mutates_caller_dicts demoClient ("user".toList)
    [("self", some 0), ("expand", some 2)]
    [("self", some 0), ("description", none), ("name", some 1)] "GET" none
    { method := "GET",
      url := ("https://example.org".toList) ++ ['/'] ++ ("rest/api/3/".toList) ++
        ("user".toList),
      params := some [("expand", some 2)], body := some [("name", some 1)] }
    (some [("expand", some 2)]) (some [("name", some 1)]) rfl

/-- Claim C6: when a fetched page carries a continuation link whose
query string has no `cursor` parameter, the cursor paginator logs and
raises: the sequence delivers exactly the items yielded so far and ends
in the propagated protocol-violation error. -/
theorem conf_cursor_missing_raises (server : ConfParams → Option ConfPage)
    (params0 : ConfParams) (fuel : Nat) (r : ConfPage) (link : NextLink)
    (hs : server (confNormalize params0) = some r)
    (hn : r.next = some link)
    (hcur : extractCursor link = none)
    (hcont : confContinue params0.limit (0 + (r.results.length : Int)) r = true) :
    confPaginate server (fuel + 1) params0 = (r.results, ConfOutcome.cursorMissing) := by
  rw [confPaginate, hs]
  simp only [confPaginateLoop]
  rw [if_pos hcont, hn]
  simp [hcur]

/-- Witness for C6: a server whose page offers a next link without a
`cursor` query parameter. -/
def c6Server : ConfParams → Option ConfPage := fun _ =>
  some { results := [7, 8], next := some { query := [("foo", "bar")] } }

theorem conf_cursor_missing_raises_witness :
    confPaginate c6Server 4 { limit := none, cursor := none } =
      ([7, 8], ConfOutcome.cursorMissing) :=
  conf_cursor_missing_raises c6Server { limit := none, cursor := none } 3
    { results := [7, 8], next := some { query := [("foo", "bar")] } }
    { query := [("foo", "bar")] } rfl rfl rfl (by decide)

/-- Claim C2 fails on the code: the loop body of
`ConfluenceApi._processResponsePaginated` never updates `count` or
`totalCount` after a fetch, so with a caller cap of 30 against a
25-item-per-page server that always offers a next cursor the paginator
has already yielded 35 items after three pages — more than the cap —
and its stale `totalCount` of 25 keeps the loop going. -/
theorem conf_cursor_cap_overrun :
    (confPaginate alwaysNextConfServer 2 { limit := some 30, cursor := none }).1.length = 35 ∧
    (confPaginate alwaysNextConfServer 2 { limit := some 30, cursor := none }).2 =
      ConfOutcome.fuelOut := by decide

/-- Field lemmas for `stdPage` at fully-specified request dicts. -/
theorem stdPage_startAt_some (total serverCap a b : Int) :
    (stdPage total serverCap { startAt := some a, maxResults := some b }).startAt = a := rfl

theorem stdPage_maxResults_some (total serverCap a b : Int) :
    (stdPage total serverCap { startAt := some a, maxResults := some b }).maxResults =
      min b serverCap := rfl

theorem stdPage_length_some (total serverCap a b : Int) :
    (((stdPage total serverCap { startAt := some a, maxResults := some b }).values.length : Int)) =
      max 0 (min (min b serverCap) (total - a)) := by
  simp [stdPage]

/-- Once the requested `maxResults` has been driven nonpositive, the
offset loop never yields another item: a well-behaved server returns
empty pages for nonpositive page sizes, and the shrink step keeps the
request nonpositive. -/
theorem jiraLoop_nonpos_yields_nil (total serverCap L start : Int) :
    ∀ (fuel : Nat) (params : JiraParams) (r : JiraPage) (m : Int),
      params.maxResults = some m → m ≤ 0 → r.maxResults ≤ 0 →
      (jiraPaginateLoop (stdJiraServer total serverCap) (some L) start fuel params r).1.length
        = 0 := by
  intro fuel
  induction fuel with
  | zero => intro params r m hm hm0 hr0; rfl
  | succ fuel ih =>
    intro params r m hm hm0 hr0
    simp only [jiraPaginateLoop]
    by_cases hcont : jiraContinue (some L) start r
    · rw [if_pos hcont]
      simp only [jiraNextParams, hm]
      by_cases hshr : r.startAt + r.maxResults + r.maxResults > L
      · rw [if_pos hshr]
        simp only [stdJiraServer]
        rw [List.length_append,
          ih _ _ (r.maxResults - (r.startAt + r.maxResults + r.maxResults - L)) rfl (by omega)
            (by rw [stdPage_maxResults_some]; omega)]
        have hl := stdPage_length_some total serverCap (r.startAt + r.maxResults)
          (r.maxResults - (r.startAt + r.maxResults + r.maxResults - L))
        omega
      · rw [if_neg hshr]
        simp only [stdJiraServer]
        rw [List.length_append,
          ih _ _ m rfl hm0 (by rw [stdPage_maxResults_some]; omega)]
        have hl := stdPage_length_some total serverCap (r.startAt + r.maxResults) m
        omega
    · rw [if_neg hcont]; rfl

/-- The offset loop against a well-behaved server yields at most the
remaining headroom `start + limit - nextOffset` (as long as the
requested page size is still nonnegative and the current envelope
reports the clamped requested size). -/
theorem jiraLoop_len_le (total serverCap L start : Int)
    (hcap : 0 ≤ serverCap) (hstart : 0 ≤ start) :
    ∀ (fuel : Nat) (params : JiraParams) (r : JiraPage) (m : Int),
      params.maxResults = some m → 0 ≤ m → r.maxResults = min m serverCap →
      (((jiraPaginateLoop (stdJiraServer total serverCap) (some L) start fuel params r).1.length
          : Int)) ≤ max 0 (start + L - (r.startAt + r.maxResults)) := by
  intro fuel
  induction fuel with
  | zero =>
    intro params r m hm hm0 hr
    simp only [jiraPaginateLoop, List.length_nil, Nat.cast_zero]
    exact le_max_left 0 _
  | succ fuel ih =>
    intro params r m hm hm0 hr
    simp only [jiraPaginateLoop]
    by_cases hcont : jiraContinue (some L) start r
    · have hc : r.startAt + r.maxResults < r.total ∧ r.startAt + r.maxResults < start + L := by
        simpa [jiraContinue] using hcont
      rw [if_pos hcont]
      simp only [jiraNextParams, hm]
      by_cases hshr : r.startAt + r.maxResults + r.maxResults > L
      · rw [if_pos hshr]
        simp only [stdJiraServer]
        rw [List.length_append]
        push_cast
        have hl := stdPage_length_some total serverCap (r.startAt + r.maxResults)
          (r.maxResults - (r.startAt + r.maxResults + r.maxResults - L))
        by_cases hm2 : 0 ≤ r.maxResults - (r.startAt + r.maxResults + r.maxResults - L)
        · have hrec := ih
            { startAt := some (r.startAt + r.maxResults),
              maxResults := some (r.maxResults -
                (r.startAt + r.maxResults + r.maxResults - L)) }
            (stdPage total serverCap
              { startAt := some (r.startAt + r.maxResults),
                maxResults := some (r.maxResults -
                  (r.startAt + r.maxResults + r.maxResults - L)) })
            _ rfl hm2 (stdPage_maxResults_some _ _ _ _)
          rw [stdPage_startAt_some, stdPage_maxResults_some] at hrec
          omega
        · have hrec := jiraLoop_nonpos_yields_nil total serverCap L start fuel
            { startAt := some (r.startAt + r.maxResults),
              maxResults := some (r.maxResults -
                (r.startAt + r.maxResults + r.maxResults - L)) }
            (stdPage total serverCap
              { startAt := some (r.startAt + r.maxResults),
                maxResults := some (r.maxResults -
                  (r.startAt + r.maxResults + r.maxResults - L)) })
            _ rfl (by omega) (by rw [stdPage_maxResults_some]; omega)
          rw [hrec]
          omega
      · rw [if_neg hshr]
        simp only [stdJiraServer]
        rw [List.length_append]
        push_cast
        have hl := stdPage_length_some total serverCap (r.startAt + r.maxResults) m
        have hrec := ih
          { startAt := some (r.startAt + r.maxResults), maxResults := some m }
          (stdPage total serverCap
            { startAt := some (r.startAt + r.maxResults), maxResults := some m })
          m rfl hm0 (stdPage_maxResults_some _ _ _ _)
        rw [stdPage_startAt_some, stdPage_maxResults_some] at hrec
        omega
    · rw [if_neg hcont]
      simp only [List.length_nil, Nat.cast_zero]
      exact le_max_left 0 _

/-- Against a well-behaved server, the offset paginator started at a
nonnegative offset with a nonnegative caller cap never yields more than
the cap. -/
theorem jiraPaginate_caps_total (total serverCap s L : Int) (fuel : Nat)
    (hs : 0 ≤ s) (hL : 0 ≤ L) (hcap : 0 ≤ serverCap) :
    ((jiraPaginate (stdJiraServer total serverCap) fuel
        { startAt := some s, maxResults := some L }).1.length : Int) ≤ L := by
  simp only [jiraPaginate, stdJiraServer, Option.getD_some]
  rw [List.length_append]
  push_cast
  have hl := stdPage_length_some total serverCap s L
  have hrec := jiraLoop_len_le total serverCap L s hcap hs fuel
    { startAt := some s, maxResults := some L }
    (stdPage total serverCap { startAt := some s, maxResults := some L })
    L rfl hL (stdPage_maxResults_some _ _ _ _)
  rw [stdPage_startAt_some, stdPage_maxResults_some] at hrec
  omega

/-- Claim C1: with a caller cap set, the offset paginator continues
only while `nextOffset < page.total` and `nextOffset < initialOffset +
cap` (the embedded `jiraContinue`), and the page-size shrink keeps the
total number of yielded items within the cap against a well-behaved
server; in particular with cap 30 and server page size 25 it yields
exactly 30 items and the final page request asks for 5. -/
theorem jira_offset_paginator_cap (total serverCap s L : Int) (fuel : Nat)
    (hs : 0 ≤ s) (hL : 0 ≤ L) (hcap : 0 ≤ serverCap) :
    ((jiraPaginate (stdJiraServer total serverCap) fuel
        { startAt := some s, maxResults := some L }).1.length : Int) ≤ L ∧
    (jiraPaginate (stdJiraServer 100 25) 10
        { startAt := some 0, maxResults := some 30 }).1.length = 30 ∧
    ((jiraPaginate (stdJiraServer 100 25) 10
        { startAt := some 0, maxResults := some 30 }).2.getLast?.map
      JiraParams.maxResults) = some (some 5) :=
  ⟨jiraPaginate_caps_total total serverCap s L fuel hs hL hcap, by decide, by decide⟩

/-- Witness for C1 at concrete parameters. -/
theorem jira_offset_paginator_cap_witness :
    (((jiraPaginate (stdJiraServer 100 25) 10
        { startAt := some 0, maxResults := some 30 }).1.length : Int) ≤ 30 ∧
      (jiraPaginate (stdJiraServer 100 25) 10
        { startAt := some 0, maxResults := some 30 }).1.length = 30 ∧
      ((jiraPaginate (stdJiraServer 100 25) 10
        { startAt := some 0, maxResults := some 30 }).2.getLast?.map
        JiraParams.maxResults) = some (some 5)) ∧
    (0 : Int) ≤ 0 ∧ (0 : Int) ≤ 30 ∧ (0 : Int) ≤ 25 :=
  ⟨jira_offset_paginator_cap 100 25 0 30 10 (by norm_num) (by norm_num) (by norm_num),
   by norm_num, by norm_num, by norm_num⟩

end AtlassianCloudRest
